import Mathlib

/-!
Shallow embedding of the per-user merge queue pipeline of `bot.py`
(MERGE-BOT repository): the in-memory stores `queueDB`, `formatDB` and
`replyDB`, the video-merge enqueue handler `handle_video_merge`, the
dispatching file handler `files_handler`, the authorization check
`is_user_authorized` and the scratch-directory cleanup `cleanup_files`.
Pure data is modelled directly; the Telegram side effects (sending,
editing, deleting messages) are dropped except where they feed back into
the stores (`replyDB` records the id of the last bot reply).
-/

/-- One user's queue entry in `queueDB`: the dict
`{"videos": [], "subtitles": [], "audios": []}` created at bot.py:403.
`videos` holds Telegram message ids; `subtitles` holds an optional
message id per queued video (a `None` placeholder is appended at
bot.py:417 for each video). -/
structure UserQueue where
  videos : List Nat
  subtitles : List (Option Nat)
  audios : List Nat
deriving DecidableEq, Repr

/-- The three process-wide per-user stores imported from `__init__` and
mutated by the handlers in bot.py: `queueDB` (per-user queue dict),
`formatDB` (extension of the first file a user sent), `replyDB` (id of
the bot's last status reply to the user). Maps are total functions from
user id to an optional entry (`none` = key absent). -/
structure BotState where
  queueDB : Nat → Option UserQueue
  formatDB : Nat → Option String
  replyDB : Nat → Option Nat

/-- Store update `formatDB[user_id] = file_ext` (bot.py:380). -/
def setFormat (s : BotState) (uid : Nat) (ext : String) : BotState :=
  { s with formatDB := fun u => if u = uid then some ext else s.formatDB u }

/-- Store update `queueDB[user_id] = q` (bot.py:403 and the in-place list
appends at bot.py:416-417, modelled functionally). -/
def setQueue (s : BotState) (uid : Nat) (q : UserQueue) : BotState :=
  { s with queueDB := fun u => if u = uid then some q else s.queueDB u }

/-- Store update `replyDB[user_id] = reply.id` (bot.py:427, 449). -/
def setReply (s : BotState) (uid : Nat) (mid : Nat) : BotState :=
  { s with replyDB := fun u => if u = uid then some mid else s.replyDB u }

/-- Modelled from the spec and bot.py:394's own message text: the
`VIDEO_EXTENSIONS` constant is imported from `__init__`, which is not
part of the sources; the handler's error message states that only MP4,
MKV or WEBM files are allowed. -/
def VIDEO_EXTENSIONS : List String := ["mp4", "mkv", "webm"]

/-- The condition of bot.py:382,
`formatDB.get(user_id) and file_ext != formatDB[user_id]`.
Python truthiness: a missing key or an empty-string extension is falsy,
so the mismatch check is skipped in those cases. -/
def mismatchCheck (fmt : Option String) (fileExt : String) : Bool :=
  match fmt with
  | some f => f != "" && fileExt != f
  | none => false

/-- The user-visible outcome of `handle_video_merge`: which reply the
handler sends. `added n` is the success path, with `n` the queue length
after the append (the handler's own messages branch on that length). -/
inductive MergeReply where
  | typeMismatch
  | unsupportedFormat
  | queueFull
  | added (newSize : Nat)
deriving DecidableEq, Repr

/-- `handle_video_merge` (bot.py:372-449) as a state transformer.
`fileExt` is the already-extracted lowercase extension, `msgId` the
incoming file message's id, `replyId` the id the bot's fresh status
reply would get (external input; the code stores `reply.id`).
Faithful control flow:
* bot.py:379-380 — record the extension when no queue exists;
* bot.py:382-389 — reject on extension mismatch with the recorded one;
* bot.py:391-397 — reject extensions outside `VIDEO_EXTENSIONS`;
* bot.py:402-403 — create the queue entry if absent;
* bot.py:407-413 — reject when 10 videos are already queued;
* bot.py:416-417 — append the message id and a `none` subtitle slot;
* bot.py:419-449 — record the new status reply id in `replyDB`. -/
def handle_video_merge (s : BotState) (uid : Nat) (fileExt : String)
    (msgId replyId : Nat) : BotState × MergeReply :=
  let s1 := if (s.queueDB uid).isNone then setFormat s uid fileExt else s
  if mismatchCheck (s1.formatDB uid) fileExt then
    (s1, MergeReply.typeMismatch)
  else if fileExt ∉ VIDEO_EXTENSIONS then
    (s1, MergeReply.unsupportedFormat)
  else
    let s2 := if (s1.queueDB uid).isNone then setQueue s1 uid ⟨[], [], []⟩ else s1
    let q := (s2.queueDB uid).getD ⟨[], [], []⟩
    if 10 ≤ q.videos.length then
      (s2, MergeReply.queueFull)
    else
      let q2 : UserQueue := ⟨q.videos ++ [msgId], q.subtitles ++ [none], q.audios⟩
      (setReply (setQueue s2 uid q2) uid replyId, MergeReply.added q2.videos.length)

@[simp] theorem setFormat_queueDB (s : BotState) (uid : Nat) (e : String) :
    (setFormat s uid e).queueDB = s.queueDB := rfl

@[simp] theorem setFormat_replyDB (s : BotState) (uid : Nat) (e : String) :
    (setFormat s uid e).replyDB = s.replyDB := rfl

@[simp] theorem setFormat_formatDB (s : BotState) (uid : Nat) (e : String) (v : Nat) :
    (setFormat s uid e).formatDB v = if v = uid then some e else s.formatDB v := rfl

@[simp] theorem setQueue_formatDB (s : BotState) (uid : Nat) (q : UserQueue) :
    (setQueue s uid q).formatDB = s.formatDB := rfl

@[simp] theorem setQueue_replyDB (s : BotState) (uid : Nat) (q : UserQueue) :
    (setQueue s uid q).replyDB = s.replyDB := rfl

@[simp] theorem setQueue_queueDB (s : BotState) (uid : Nat) (q : UserQueue) (v : Nat) :
    (setQueue s uid q).queueDB v = if v = uid then some q else s.queueDB v := rfl

@[simp] theorem setReply_queueDB (s : BotState) (uid : Nat) (m : Nat) :
    (setReply s uid m).queueDB = s.queueDB := rfl

@[simp] theorem setReply_formatDB (s : BotState) (uid : Nat) (m : Nat) :
    (setReply s uid m).formatDB = s.formatDB := rfl

@[simp] theorem setReply_replyDB (s : BotState) (uid : Nat) (m : Nat) (v : Nat) :
    (setReply s uid m).replyDB v = if v = uid then some m else s.replyDB v := rfl

/-- `CurrentSize` of the spec: the length of a user's `videos` list,
`0` when the user has no queue. -/
def videoCount (s : BotState) (uid : Nat) : Nat :=
  match s.queueDB uid with
  | some q => q.videos.length
  | none => 0

/-- Whether a `MergeReply` is the success outcome. -/
def MergeReply.isAdded : MergeReply → Bool
  | MergeReply.added _ => true
  | _ => false

/-- One incoming video-mode file event: the sender, the extracted
extension, the file message's id and the id the status reply gets. -/
structure VideoEvent where
  uid : Nat
  fileExt : String
  msgId : Nat
  replyId : Nat

/-- The state change of one `handle_video_merge` call. -/
def stepVideo (s : BotState) (e : VideoEvent) : BotState :=
  (handle_video_merge s e.uid e.fileExt e.msgId e.replyId).1

/-- Run a sequence of video-mode file events through the handler. -/
def runVideo (s : BotState) (es : List VideoEvent) : BotState :=
  es.foldl stepVideo s

/-- The stores at process start: all three dicts empty. -/
def initialState : BotState :=
  ⟨fun _ => none, fun _ => none, fun _ => none⟩

/-- How many events of the sequence are successful enqueues by `uid`,
judged against the state each event actually runs in. -/
def successfulEnqueues (uid : Nat) : BotState → List VideoEvent → Nat
  | _, [] => 0
  | s, e :: es =>
      (if e.uid == uid && (handle_video_merge s e.uid e.fileExt e.msgId e.replyId).2.isAdded
       then 1 else 0) + successfulEnqueues uid (stepVideo s e) es

theorem hvm_count_step (s : BotState) (uid : Nat) (e : String) (m r : Nat) :
    ((handle_video_merge s uid e m r).2.isAdded = true →
       videoCount s uid < 10 ∧
       videoCount (handle_video_merge s uid e m r).1 uid = videoCount s uid + 1) ∧
    ((handle_video_merge s uid e m r).2.isAdded = false →
       videoCount (handle_video_merge s uid e m r).1 uid = videoCount s uid) ∧
    (∀ v, v ≠ uid → (handle_video_merge s uid e m r).1.queueDB v = s.queueDB v) := by
  unfold handle_video_merge
  rcases h : s.queueDB uid with _ | q0
  · by_cases he : e ∈ VIDEO_EXTENSIONS
    · simp [h, he, mismatchCheck, videoCount, MergeReply.isAdded]
      intro v hv
      simp [hv]
    · simp [h, he, mismatchCheck, videoCount, MergeReply.isAdded]
  · by_cases hm : mismatchCheck (s.formatDB uid) e = true
    · simp [h, hm, videoCount, MergeReply.isAdded]
    · by_cases he : e ∈ VIDEO_EXTENSIONS
      · by_cases hf : 10 ≤ q0.videos.length
        · simp [h, hm, he, hf, videoCount, MergeReply.isAdded]
        · simp [h, hm, he, hf, videoCount, MergeReply.isAdded]
          exact ⟨by omega, fun v hv hv2 => absurd hv2 hv⟩
      · simp [h, hm, he, videoCount, MergeReply.isAdded]

theorem stepVideo_count (s : BotState) (e : VideoEvent) (uid : Nat) :
    videoCount (stepVideo s e) uid =
      videoCount s uid +
        (if e.uid == uid && (handle_video_merge s e.uid e.fileExt e.msgId e.replyId).2.isAdded
         then 1 else 0) := by
  obtain ⟨h1, h2, h3⟩ := hvm_count_step s e.uid e.fileExt e.msgId e.replyId
  by_cases hu : e.uid = uid
  · subst hu
    cases hA : (handle_video_merge s e.uid e.fileExt e.msgId e.replyId).2.isAdded
    · simp [stepVideo, h2 hA, hA]
    · simp [stepVideo, (h1 hA).2, hA]
  · have hq := h3 uid (fun hh => hu hh.symm)
    unfold videoCount stepVideo
    rw [hq]
    simp [hu]

theorem runVideo_count (uid : Nat) (es : List VideoEvent) : ∀ (s : BotState),
    videoCount (runVideo s es) uid = videoCount s uid + successfulEnqueues uid s es := by
  induction es with
  | nil => intro s; simp [runVideo, successfulEnqueues]
  | cons e es ih =>
    intro s
    have hrun : runVideo s (e :: es) = runVideo (stepVideo s e) es := rfl
    rw [hrun, ih (stepVideo s e)]
    have hcons : successfulEnqueues uid s (e :: es) =
        (if e.uid == uid && (handle_video_merge s e.uid e.fileExt e.msgId e.replyId).2.isAdded
         then 1 else 0) + successfulEnqueues uid (stepVideo s e) es := rfl
    rw [hcons, stepVideo_count]
    omega

theorem hvm_queueDB (s : BotState) (uid : Nat) (e : String) (m r : Nat) :
    ((handle_video_merge s uid e m r).2.isAdded = false →
       (handle_video_merge s uid e m r).1.queueDB = s.queueDB) ∧
    ((handle_video_merge s uid e m r).2.isAdded = true →
       (handle_video_merge s uid e m r).1.queueDB uid =
         some ⟨((s.queueDB uid).getD ⟨[], [], []⟩).videos ++ [m],
               ((s.queueDB uid).getD ⟨[], [], []⟩).subtitles ++ [none],
               ((s.queueDB uid).getD ⟨[], [], []⟩).audios⟩ ∧
       (handle_video_merge s uid e m r).2 =
         MergeReply.added (((s.queueDB uid).getD ⟨[], [], []⟩).videos.length + 1) ∧
       (∀ v, v ≠ uid → (handle_video_merge s uid e m r).1.queueDB v = s.queueDB v)) := by
  unfold handle_video_merge
  rcases h : s.queueDB uid with _ | q0
  · by_cases he : e ∈ VIDEO_EXTENSIONS
    · simp [h, he, mismatchCheck, MergeReply.isAdded]
      intro v hv
      simp [hv]
    · simp [h, he, mismatchCheck, MergeReply.isAdded]
  · by_cases hm : mismatchCheck (s.formatDB uid) e = true
    · simp [h, hm, MergeReply.isAdded]
    · by_cases he : e ∈ VIDEO_EXTENSIONS
      · by_cases hf : 10 ≤ q0.videos.length
        · simp [h, hm, he, hf, MergeReply.isAdded]
        · simp [h, hm, he, hf, MergeReply.isAdded]
          exact fun v hv hv2 => absurd hv2 hv
      · simp [h, hm, he, MergeReply.isAdded]

/-- The per-queue invariant of C9: the `subtitles` list always has the
same length as the `videos` list. -/
def SubsInv (s : BotState) : Prop :=
  ∀ u q, s.queueDB u = some q → q.subtitles.length = q.videos.length

theorem stepVideo_subsInv (s : BotState) (e : VideoEvent) (h : SubsInv s) :
    SubsInv (stepVideo s e) := by
  obtain ⟨hfail, hsucc⟩ := hvm_queueDB s e.uid e.fileExt e.msgId e.replyId
  intro u q hq
  cases hA : (handle_video_merge s e.uid e.fileExt e.msgId e.replyId).2.isAdded
  · have : (stepVideo s e).queueDB = s.queueDB := hfail hA
    rw [this] at hq
    exact h u q hq
  · by_cases hu : u = e.uid
    · rw [hu] at hq
      have hq2 := (hsucc hA).1
      have hq3 : some q = some (⟨((s.queueDB e.uid).getD ⟨[], [], []⟩).videos ++ [e.msgId],
          ((s.queueDB e.uid).getD ⟨[], [], []⟩).subtitles ++ [none],
          ((s.queueDB e.uid).getD ⟨[], [], []⟩).audios⟩ : UserQueue) := hq.symm.trans hq2
      cases hq3
      rcases h0 : s.queueDB e.uid with _ | q0
      · simp [h0]
      · simp [h0, h e.uid q0 h0]
    · have : (stepVideo s e).queueDB u = s.queueDB u := (hsucc hA).2.2 u hu
      rw [this] at hq
      exact h u q hq

theorem stepVideo_count_le (s : BotState) (e : VideoEvent) (uid : Nat)
    (h : videoCount s uid ≤ 10) : videoCount (stepVideo s e) uid ≤ 10 := by
  obtain ⟨h1, _, _⟩ := hvm_count_step s e.uid e.fileExt e.msgId e.replyId
  rw [stepVideo_count]
  split
  next hc =>
    simp only [Bool.and_eq_true, beq_iff_eq] at hc
    obtain ⟨hu2, hA⟩ := hc
    have hlt := (h1 hA).1
    rw [hu2] at hlt
    omega
  next => omega

theorem runVideo_count_le (es : List VideoEvent) : ∀ s : BotState,
    (∀ u, videoCount s u ≤ 10) → ∀ u, videoCount (runVideo s es) u ≤ 10 := by
  induction es with
  | nil => intro s h u; exact h u
  | cons e es ih =>
    intro s h u
    exact ih (stepVideo s e) (fun v => stepVideo_count_le s e v (h v)) u

theorem runVideo_subsInv (es : List VideoEvent) : ∀ s : BotState,
    SubsInv s → SubsInv (runVideo s es) := by
  induction es with
  | nil => intro s h; exact h
  | cons e es ih =>
    intro s h
    exact ih (stepVideo s e) (stepVideo_subsInv s e h)

/-- The characters after the last `'.'` of the list, `none` when no dot
occurs. -/
def afterLastDot : List Char → Option (List Char)
  | [] => none
  | c :: cs =>
    match afterLastDot cs with
    | some e => some e
    | none => if c = '.' then some cs else none

/-- The extension extraction of bot.py:348,
`media.file_name.rsplit(".", 1)[-1].lower()`: the part after the last
dot (the whole name when there is no dot), lowercased per character
(`Char.toLower` models Python's `.lower()` on the ASCII extensions the
bot compares against). -/
def extOf (name : String) : String :=
  String.mk (((afterLastDot name.data).getD name.data).map Char.toLower)

/-- The fields of `UserSettings` (helpers/utils, read through the
handlers in bot.py): the ban flag, the login flag and the integer merge
mode (1 = video, 2 = audio, 3 = subtitle, 4 = extract). -/
structure UserSettings where
  banned : Bool
  allowed : Bool
  merge_mode : Nat
deriving DecidableEq, Repr

/-- The outcome of `is_user_authorized`: the returned boolean, the
in-memory settings after the call, and whether `user.set()` persisted
them. -/
structure AuthOutcome where
  authorized : Bool
  settings : UserSettings
  persisted : Bool
deriving DecidableEq, Repr

/-- `is_user_authorized` (bot.py:146-176). `o` is `int(Config.OWNER)`,
`hasMessage` whether a `message` object was passed (the reply side
effects are dropped; only the control flow and the `user.set()`
persistence are kept):
* bot.py:152-160 — a banned user is always refused, before any owner
  check;
* bot.py:162-165 — the owner is marked allowed, persisted, accepted;
* bot.py:167-174 — a not-allowed user is refused when a message is
  present (with no message the function falls through and accepts). -/
def is_user_authorized (o uid : Nat) (u : UserSettings) (hasMessage : Bool) : AuthOutcome :=
  if u.banned then ⟨false, u, false⟩
  else if uid = o then ⟨true, { u with allowed := true }, true⟩
  else if !u.allowed && hasMessage then ⟨false, u, false⟩
  else ⟨true, u, false⟩

/-- Which path `files_handler` took for an incoming file, including
which merge handler it dispatched to. -/
inductive FileAction where
  | unauthorized
  | extractModeIgnored
  | busyRejected
  | invalidFile
  | confPrompt
  | routedVideo (r : MergeReply)
  | routedAudio
  | routedSubtitle
  | unhandledMode
deriving DecidableEq, Repr

/-- The state transformer type of a merge handler:
state, user id, file extension, message id, reply id to new state. -/
def HandlerFn : Type :=
  BotState → Nat → String → Nat → Nat → BotState

/-- `files_handler` (bot.py:318-370) as a state transformer. The audio
and subtitle handlers (`handle_audio_merge`, `handle_subtitle_merge`)
are referenced at bot.py:368/370 but their bodies are not among the
sources, so they are taken as parameters `audioH`/`subH`; every theorem
below holds for all of them. `busy` is the existence of the sentinel
file `downloads/<user_id>/input.txt` (bot.py:334-335); `media` is the
incoming file's name (`none` when no media or no file name). Faithful
control flow, in order: authorization (bot.py:324), extract mode 4
(bot.py:330), the busy sentinel (bot.py:335), media validity
(bot.py:344), the `.conf` prompt (bot.py:351), then dispatch on
`merge_mode` 1/2/3 (bot.py:365-370). -/
def files_handler (audioH subH : HandlerFn) (s : BotState) (o uid : Nat)
    (u : UserSettings) (busy : Bool) (media : Option String)
    (msgId replyId : Nat) : BotState × FileAction :=
  if ¬(is_user_authorized o uid u true).authorized then
    (s, FileAction.unauthorized)
  else if u.merge_mode = 4 then
    (s, FileAction.extractModeIgnored)
  else if busy then
    (s, FileAction.busyRejected)
  else
    match media with
    | none => (s, FileAction.invalidFile)
    | some name =>
      if name = "" then (s, FileAction.invalidFile)
      else
        let fileExt := extOf name
        if fileExt = "conf" then (s, FileAction.confPrompt)
        else if u.merge_mode = 1 then
          let out := handle_video_merge s uid fileExt msgId replyId
          (out.1, FileAction.routedVideo out.2)
        else if u.merge_mode = 2 then
          (audioH s uid fileExt msgId replyId, FileAction.routedAudio)
        else if u.merge_mode = 3 then
          (subH s uid fileExt msgId replyId, FileAction.routedSubtitle)
        else
          (s, FileAction.unhandledMode)

/-- `cleanup_files` (bot.py:178-186). The filesystem is modelled as the
predicate `fs` telling which users' `downloads/<user_id>` directories
exist; `rmtreeRaises` says whether the `shutil.rmtree` call would raise
(the directory is then modelled as left in place). The `Except`
codomain records whether an error escapes to the caller: the
`try/except` at bot.py:182-186 swallows the failure and only logs it,
so every path returns `Except.ok`. -/
def cleanup_files (fs : Nat → Bool) (uid : Nat) (rmtreeRaises : Bool) :
    Except String (Nat → Bool) :=
  if fs uid then
    if rmtreeRaises then Except.ok fs
    else Except.ok (fun u => if u = uid then false else fs u)
  else Except.ok fs

theorem hvm_formatDB (s : BotState) (uid : Nat) (e : String) (m r : Nat) :
    (s.queueDB uid ≠ none → (handle_video_merge s uid e m r).1.formatDB = s.formatDB) ∧
    (s.queueDB uid = none →
       (handle_video_merge s uid e m r).1.formatDB uid = some e ∧
       (∀ v, v ≠ uid → (handle_video_merge s uid e m r).1.formatDB v = s.formatDB v)) := by
  unfold handle_video_merge
  rcases h : s.queueDB uid with _ | q0
  · by_cases he : e ∈ VIDEO_EXTENSIONS
    · simp [h, he, mismatchCheck]
      intro v hv
      simp [hv]
    · simp [h, he, mismatchCheck]
      intro v hv
      simp [hv]
  · by_cases hm : mismatchCheck (s.formatDB uid) e = true
    · simp [h, hm]
    · by_cases he : e ∈ VIDEO_EXTENSIONS
      · by_cases hf : 10 ≤ q0.videos.length
        · simp [h, hm, he, hf]
        · simp [h, hm, he, hf]
      · simp [h, hm, he]

/-- C1: for every user, after N successful video enqueues `CurrentSize`
(the length of the user's `videos` queue) equals N; and an enqueue
attempted when the queue already holds MAX_QUEUE_SIZE = 10 items (the
file being of the recorded, supported type, so that the capacity check
is the one that fires) fails with `QueueFull` and does not append the
item — the state is returned entirely unchanged. -/
theorem claim_C1 :
    (∀ (es : List VideoEvent) (uid : Nat),
        videoCount (runVideo initialState es) uid = successfulEnqueues uid initialState es) ∧
    (∀ (s : BotState) (uid : Nat) (e : String) (m r : Nat) (q : UserQueue),
        s.queueDB uid = some q → q.videos.length = 10 →
        mismatchCheck (s.formatDB uid) e = false → e ∈ VIDEO_EXTENSIONS →
        handle_video_merge s uid e m r = (s, MergeReply.queueFull)) := by
  constructor
  · intro es uid
    have h := runVideo_count uid es initialState
    have h0 : videoCount initialState uid = 0 := rfl
    rw [h, h0, Nat.zero_add]
  · intro s uid e m r q hq hlen hmm he
    unfold handle_video_merge
    simp [hq, hmm, he, hlen]

/-- A queue already holding 10 videos, used to exercise the capacity
check of `claim_C1`. -/
def fullQueue : UserQueue :=
  ⟨[1, 2, 3, 4, 5, 6, 7, 8, 9, 10], List.replicate 10 none, []⟩

/-- A store in which user 7 has a full queue of MP4 videos. -/
def fullState : BotState :=
  ⟨fun u => if u = 7 then some fullQueue else none,
   fun u => if u = 7 then some "mp4" else none,
   fun _ => none⟩

/-- Witness for C1: user 7's queue holds 10 items and a further matching
MP4 enqueue fails with `QueueFull`, leaving the state unchanged. -/
theorem claim_C1_witness :
    fullState.queueDB 7 = some fullQueue ∧ fullQueue.videos.length = 10 ∧
    mismatchCheck (fullState.formatDB 7) "mp4" = false ∧ "mp4" ∈ VIDEO_EXTENSIONS ∧
    handle_video_merge fullState 7 "mp4" 99 100 = (fullState, MergeReply.queueFull) :=
  ⟨rfl, by decide, by decide, by decide,
   claim_C1.2 fullState 7 "mp4" 99 100 fullQueue rfl (by decide) (by decide) (by decide)⟩

/-- C2: starting from the empty stores, after any sequence of video
enqueue operations every user's queue length lies in [0, 10]. -/
theorem claim_C2 (es : List VideoEvent) (uid : Nat) :
    0 ≤ videoCount (runVideo initialState es) uid ∧
    videoCount (runVideo initialState es) uid ≤ 10 := by
  refine ⟨Nat.zero_le _, ?_⟩
  exact runVideo_count_le es initialState (fun u => Nat.zero_le 10) uid

/-- Counterexample for C3 as stated: after user 1 queues an MP4 video,
sending an AVI file — an extension that is not an accepted video kind —
is rejected with the type-mismatch reply of bot.py:382-389, not with the
unsupported-format reply of bot.py:391-397. -/
theorem claim_C3_counterexample :
    ("avi" ∉ VIDEO_EXTENSIONS) ∧
    (handle_video_merge (runVideo initialState [⟨1, "mp4", 10, 11⟩]) 1 "avi" 12 13).2 =
      MergeReply.typeMismatch := by
  decide

/-- C3 (amended): an enqueue whose extension is not an accepted video
kind never changes `queueDB` (nothing is appended, no queue is created).
It is rejected with `UnsupportedType` when the user has no queue; when a
queue is present, it is rejected with the type-mismatch reply exactly
when the mismatch check of bot.py:382 fires — a recorded extension
exists, is non-empty (Python truthiness) and differs from the incoming
one — and with `UnsupportedType` otherwise. -/
theorem claim_C3 (s : BotState) (uid : Nat) (e : String) (m r : Nat)
    (h : e ∉ VIDEO_EXTENSIONS) :
    (handle_video_merge s uid e m r).1.queueDB = s.queueDB ∧
    (s.queueDB uid = none →
      (handle_video_merge s uid e m r).2 = MergeReply.unsupportedFormat) ∧
    (s.queueDB uid ≠ none →
      (handle_video_merge s uid e m r).2 =
        (if mismatchCheck (s.formatDB uid) e then MergeReply.typeMismatch
         else MergeReply.unsupportedFormat)) := by
  unfold handle_video_merge
  rcases h0 : s.queueDB uid with _ | q0
  · simp [h0, h, mismatchCheck]
  · by_cases hm : mismatchCheck (s.formatDB uid) e = true
    · simp [h0, hm, h]
    · simp [h0, hm, h]

/-- Witness for C3: a fresh user's AVI file is rejected with the
unsupported-format reply and no queue is created; for a user who already
queued an MP4, the same AVI file lands on the type-mismatch side of the
mismatch-check condition. -/
theorem claim_C3_witness :
    ("avi" ∉ VIDEO_EXTENSIONS) ∧
    (initialState.queueDB 2 = none →
      (handle_video_merge initialState 2 "avi" 5 6).2 = MergeReply.unsupportedFormat) ∧
    ((runVideo initialState [⟨1, "mp4", 10, 11⟩]).queueDB 1 ≠ none →
      (handle_video_merge (runVideo initialState [⟨1, "mp4", 10, 11⟩]) 1 "avi" 12 13).2 =
        (if mismatchCheck ((runVideo initialState [⟨1, "mp4", 10, 11⟩]).formatDB 1) "avi"
         then MergeReply.typeMismatch else MergeReply.unsupportedFormat)) :=
  ⟨by decide,
   (claim_C3 initialState 2 "avi" 5 6 (by decide)).2.1,
   (claim_C3 (runVideo initialState [⟨1, "mp4", 10, 11⟩]) 1 "avi" 12 13 (by decide)).2.2⟩

/-- C4: a successful enqueue appends the message id to the end of the
user's `videos` list (creating the queue entry if it was absent — the
prior items are the empty list then), reports the new queue size, and
leaves every other user's queue untouched; the items already queued stay
in place, in order, as the prefix of the new list. -/
theorem claim_C4 (s : BotState) (uid : Nat) (e : String) (m r n : Nat)
    (h : (handle_video_merge s uid e m r).2 = MergeReply.added n) :
    (handle_video_merge s uid e m r).1.queueDB uid =
      some ⟨((s.queueDB uid).getD ⟨[], [], []⟩).videos ++ [m],
            ((s.queueDB uid).getD ⟨[], [], []⟩).subtitles ++ [none],
            ((s.queueDB uid).getD ⟨[], [], []⟩).audios⟩ ∧
    n = ((s.queueDB uid).getD ⟨[], [], []⟩).videos.length + 1 ∧
    (∀ v, v ≠ uid → (handle_video_merge s uid e m r).1.queueDB v = s.queueDB v) := by
  have hA : (handle_video_merge s uid e m r).2.isAdded = true := by
    rw [h]; rfl
  obtain ⟨_, hsucc⟩ := hvm_queueDB s uid e m r
  refine ⟨(hsucc hA).1, ?_, (hsucc hA).2.2⟩
  have h2 := (hsucc hA).2.1
  rw [h] at h2
  injection h2

/-- Witness for C4: a fresh user's first MP4 enqueue creates the queue
`⟨[50], [none], []⟩` and reports size 1. -/
theorem claim_C4_witness :
    (handle_video_merge initialState 3 "mp4" 50 60).2 = MergeReply.added 1 ∧
    (handle_video_merge initialState 3 "mp4" 50 60).1.queueDB 3 = some ⟨[50], [none], []⟩ :=
  ⟨by decide, by
    have h := claim_C4 initialState 3 "mp4" 50 60 1 (by decide)
    simpa using h.1⟩

/-- C5: while the busy sentinel `downloads/<user_id>/input.txt` exists,
`files_handler` leaves the stores exactly as they were — whatever the
audio/subtitle handlers would do — and, for an authorized user not in
extract mode, answers with the busy rejection. -/
theorem claim_C5 (audioH subH : HandlerFn) (s : BotState) (o uid : Nat)
    (u : UserSettings) (media : Option String) (m r : Nat) :
    (files_handler audioH subH s o uid u true media m r).1 = s ∧
    ((is_user_authorized o uid u true).authorized = true → u.merge_mode ≠ 4 →
      (files_handler audioH subH s o uid u true media m r).2 = FileAction.busyRejected) := by
  unfold files_handler
  by_cases ha : (is_user_authorized o uid u true).authorized = true
  · by_cases h4 : u.merge_mode = 4
    · simp [ha, h4]
    · simp [ha, h4]
  · simp [ha]

/-- The identity merge handler, standing in for the audio/subtitle
handlers in concrete instantiations. -/
def hId : HandlerFn := fun s _ _ _ _ => s

/-- Witness for C5: an authorized, logged-in user in video mode sending
a file while busy gets the busy rejection and the stores are unchanged. -/
theorem claim_C5_witness :
    (is_user_authorized 1 2 ⟨false, true, 1⟩ true).authorized = true ∧
    (files_handler hId hId initialState 1 2 ⟨false, true, 1⟩ true (some "a.mp4") 5 6).2 =
      FileAction.busyRejected :=
  ⟨by decide,
   (claim_C5 hId hId initialState 1 2 ⟨false, true, 1⟩ (some "a.mp4") 5 6).2
     (by decide) (by decide)⟩

/-- C6: `cleanup_files` always returns to its caller without an error
(the `try/except` swallows any `rmtree` failure); it is a no-op when the
user's scratch directory is absent, removes the directory whenever the
removal itself does not raise, and never touches another user's
directory. -/
theorem claim_C6 (fs : Nat → Bool) (uid : Nat) (b : Bool) :
    ∃ fs2, cleanup_files fs uid b = Except.ok fs2 ∧
      (fs uid = false → fs2 = fs) ∧
      (b = false → fs2 uid = false) ∧
      (∀ v, v ≠ uid → fs2 v = fs v) := by
  unfold cleanup_files
  cases h : fs uid with
  | false =>
    refine ⟨fs, by simp [h], fun _ => rfl, fun _ => h, fun v _ => rfl⟩
  | true =>
    cases hb : b with
    | true =>
      refine ⟨fs, by simp [h, hb], fun hf => Bool.noConfusion hf,
        fun hb0 => Bool.noConfusion hb0, fun v _ => rfl⟩
    | false =>
      exact ⟨fun u => if u = uid then false else fs u, by simp [h, hb],
        fun hf => Bool.noConfusion hf,
        fun _ => by simp, fun v hv => by simp [hv]⟩

/-- Witness for C6: cleanup for a user with no scratch directory
returns `ok` and leaves the (empty) filesystem as it was. -/
theorem claim_C6_witness :
    ∃ fs2, cleanup_files (fun _ => false) 3 false = Except.ok fs2 ∧
      ((fun _ => false : Nat → Bool) 3 = false → fs2 = (fun _ => false)) ∧
      (false = false → fs2 3 = false) ∧
      (∀ v, v ≠ 3 → fs2 v = (fun _ => false : Nat → Bool) v) :=
  claim_C6 (fun _ => false) 3 false

/-- C7: `files_handler` dispatches once on the integer merge mode: for
an authorized, non-busy user with a valid non-config file, mode 1 routes
to `handle_video_merge`, mode 2 to the audio handler and mode 3 to the
subtitle handler; in mode 4 it returns with the stores untouched. -/
theorem claim_C7 (audioH subH : HandlerFn) (s : BotState) (o uid : Nat)
    (u : UserSettings) (busy : Bool) (media : Option String) (name : String) (m r : Nat) :
    (u.merge_mode = 4 → (files_handler audioH subH s o uid u busy media m r).1 = s) ∧
    ((is_user_authorized o uid u true).authorized = true → busy = false →
      name ≠ "" → extOf name ≠ "conf" →
      ((u.merge_mode = 1 →
          files_handler audioH subH s o uid u busy (some name) m r =
            ((handle_video_merge s uid (extOf name) m r).1,
             FileAction.routedVideo (handle_video_merge s uid (extOf name) m r).2)) ∧
       (u.merge_mode = 2 →
          files_handler audioH subH s o uid u busy (some name) m r =
            (audioH s uid (extOf name) m r, FileAction.routedAudio)) ∧
       (u.merge_mode = 3 →
          files_handler audioH subH s o uid u busy (some name) m r =
            (subH s uid (extOf name) m r, FileAction.routedSubtitle)))) := by
  constructor
  · intro h4
    unfold files_handler
    by_cases ha : (is_user_authorized o uid u true).authorized = true
    · simp [ha, h4]
    · simp [ha]
  · intro ha hb hn hc
    subst hb
    refine ⟨fun h1 => ?_, fun h2 => ?_, fun h3 => ?_⟩
    · unfold files_handler
      simp [ha, h1, hn, hc]
    · unfold files_handler
      simp [ha, h2, hn, hc]
    · unfold files_handler
      simp [ha, h3, hn, hc]

/-- Witness for C7: in extract mode 4 the stores are untouched, and in
video mode 1 an `a.mp4` file is routed to `handle_video_merge`. -/
theorem claim_C7_witness :
    (files_handler hId hId initialState 1 2 ⟨false, true, 4⟩ false (some "a.mp4") 5 6).1 =
      initialState ∧
    files_handler hId hId initialState 1 2 ⟨false, true, 1⟩ false (some "a.mp4") 5 6 =
      ((handle_video_merge initialState 2 (extOf "a.mp4") 5 6).1,
       FileAction.routedVideo (handle_video_merge initialState 2 (extOf "a.mp4") 5 6).2) :=
  ⟨(claim_C7 hId hId initialState 1 2 ⟨false, true, 4⟩ false (some "a.mp4") "a.mp4" 5 6).1 rfl,
   ((claim_C7 hId hId initialState 1 2 ⟨false, true, 1⟩ false (some "a.mp4") "a.mp4" 5 6).2
      (by decide) rfl (by decide) (by decide)).1 rfl⟩

/-- C8: once a user's queue exists (in particular when it is non-empty),
an enqueue whose extension differs from the non-empty recorded one is
rejected with the type-mismatch reply and the state — queue included —
is returned unchanged, whether or not the new extension is itself a
supported video type; and the recorded extension is (re)assigned exactly
when the user's queue is absent. -/
theorem claim_C8 (s : BotState) (uid : Nat) (q : UserQueue) (f e : String) (m r : Nat)
    (hq : s.queueDB uid = some q) (hne : q.videos ≠ [])
    (hf : s.formatDB uid = some f) (hf0 : f ≠ "") (hmm : e ≠ f) :
    handle_video_merge s uid e m r = (s, MergeReply.typeMismatch) ∧
    (∀ (s2 : BotState) (uid2 : Nat) (e2 : String) (m2 r2 : Nat),
      (s2.queueDB uid2 ≠ none →
        (handle_video_merge s2 uid2 e2 m2 r2).1.formatDB = s2.formatDB) ∧
      (s2.queueDB uid2 = none →
        (handle_video_merge s2 uid2 e2 m2 r2).1.formatDB uid2 = some e2)) := by
  refine ⟨?_, fun s2 uid2 e2 m2 r2 =>
    ⟨(hvm_formatDB s2 uid2 e2 m2 r2).1, fun h0 => ((hvm_formatDB s2 uid2 e2 m2 r2).2 h0).1⟩⟩
  unfold handle_video_merge
  simp [hq, hf, hf0, hmm, mismatchCheck]

/-- Witness for C8: after queueing an MP4, an MKV file — itself a
supported type — is rejected with the type-mismatch reply. -/
theorem claim_C8_witness :
    ("mkv" ∈ VIDEO_EXTENSIONS) ∧
    ((runVideo initialState [⟨1, "mp4", 10, 11⟩]).formatDB 1 = some "mp4") ∧
    (handle_video_merge (runVideo initialState [⟨1, "mp4", 10, 11⟩]) 1 "mkv" 12 13).2 =
      MergeReply.typeMismatch :=
  ⟨by decide, by decide, by
    rw [(claim_C8 (runVideo initialState [⟨1, "mp4", 10, 11⟩]) 1 ⟨[10], [none], []⟩
      "mp4" "mkv" 12 13 (by decide) (by decide) (by decide) (by decide) (by decide)).1]⟩

/-- C9: starting from the empty stores, every reachable queue has as
many `subtitles` placeholders as `videos` entries — each successful
video enqueue appends exactly one to each list, and a freshly created
queue has both empty. -/
theorem claim_C9 (es : List VideoEvent) (uid : Nat) (q : UserQueue)
    (h : (runVideo initialState es).queueDB uid = some q) :
    q.subtitles.length = q.videos.length :=
  runVideo_subsInv es initialState (fun _ _ hq => nomatch hq) uid q h

/-- Witness for C9: after one successful enqueue user 5's queue is
`⟨[21], [none], []⟩`, with one subtitle placeholder per video. -/
theorem claim_C9_witness :
    (runVideo initialState [⟨5, "mkv", 21, 22⟩]).queueDB 5 = some ⟨[21], [none], []⟩ ∧
    (UserQueue.mk [21] [none] []).subtitles.length = (UserQueue.mk [21] [none] []).videos.length :=
  ⟨by decide, claim_C9 [⟨5, "mkv", 21, 22⟩] 5 ⟨[21], [none], []⟩ (by decide)⟩

/-- C10: a banned user is refused whoever they are — the ban check at
bot.py:152 precedes the owner check at bot.py:162, so even the owner is
refused when banned — and a non-banned owner is accepted, with the
`allowed` flag set and persisted by `user.set()`. -/
theorem claim_C10 (o uid : Nat) (u : UserSettings) (hm : Bool) :
    (u.banned = true → (is_user_authorized o uid u hm).authorized = false) ∧
    (u.banned = false → uid = o →
      (is_user_authorized o uid u hm).authorized = true ∧
      (is_user_authorized o uid u hm).persisted = true ∧
      (is_user_authorized o uid u hm).settings.allowed = true) := by
  constructor
  · intro hb
    simp [is_user_authorized, hb]
  · intro hb he
    simp [is_user_authorized, hb, he]

/-- Witness for C10: the banned owner (id 9) is refused; the non-banned,
not-yet-allowed owner is accepted, marked allowed and persisted. -/
theorem claim_C10_witness :
    (is_user_authorized 9 9 ⟨true, true, 1⟩ true).authorized = false ∧
    ((is_user_authorized 9 9 ⟨false, false, 1⟩ true).authorized = true ∧
      (is_user_authorized 9 9 ⟨false, false, 1⟩ true).persisted = true ∧
      (is_user_authorized 9 9 ⟨false, false, 1⟩ true).settings.allowed = true) :=
  ⟨(claim_C10 9 9 ⟨true, true, 1⟩ true).1 rfl,
   (claim_C10 9 9 ⟨false, false, 1⟩ true).2 rfl rfl⟩
